import Mathlib

/-!
Shallow embedding of the GitStatusWaybar status-classification and
aggregation engine (src/lib/git_status_checker.py and
src/scripts/git-monitor.py), together with proofs about its behaviour.

Python dictionaries with a fixed key set are modelled as association
lists, Python sets of statuses as duplicate-free lists, optional dict
entries as `Option` values, timestamps as natural-number seconds, and
the per-repository git probe (which shells out to git) as an oracle
parameter of the batch scanner.
-/

namespace GitStatusWaybar

/-- The `RepoStatus` enumeration from git_status_checker.py, constructors
in Python declaration order. -/
inductive RepoStatus where
  | CLEAN
  | UNCOMMITTED
  | UNTRACKED
  | UNPUSHED
  | UPSTREAM_AVAILABLE
  | ERROR
  | NOT_A_REPO
  | MULTIPLE
deriving DecidableEq

open RepoStatus

/-- Position of a status in `list(RepoStatus)`, i.e. the Python
declaration order; this is the sort key used by
`generate_waybar_output` (`list(RepoStatus).index(...)`). -/
def statusListIndex : RepoStatus → Nat
  | CLEAN => 0
  | UNCOMMITTED => 1
  | UNTRACKED => 2
  | UNPUSHED => 3
  | UPSTREAM_AVAILABLE => 4
  | ERROR => 5
  | NOT_A_REPO => 6
  | MULTIPLE => 7

/-- The `priority_order` list from `get_status_priority`
(highest priority first). -/
def priority_order : List RepoStatus :=
  [ERROR, NOT_A_REPO, UNCOMMITTED, UNTRACKED, UNPUSHED, UPSTREAM_AVAILABLE, CLEAN]

/-- The trailing loop of `get_status_priority`: return the first element
of `order` that occurs in `statuses`, defaulting to `CLEAN`. -/
def firstMem (order : List RepoStatus) (statuses : List RepoStatus) : RepoStatus :=
  match order with
  | [] => CLEAN
  | s :: rest => if s ∈ statuses then s else firstMem rest statuses

/-- `GitStatusChecker.get_status_priority`: resolve a list of raw
statuses (a Python set) to one priority status. -/
def get_status_priority (statuses : List RepoStatus) : RepoStatus :=
  if 1 < statuses.length then
    if ERROR ∈ statuses ∨ NOT_A_REPO ∈ statuses then
      if ERROR ∈ statuses then ERROR else NOT_A_REPO
    else MULTIPLE
  else firstMem priority_order statuses

/-- The `STATUS_CLASSES` dictionary (status → Waybar CSS class). -/
def STATUS_CLASSES : List (RepoStatus × String) :=
  [ (CLEAN, "clean"),
    (UNCOMMITTED, "uncommitted"),
    (UNTRACKED, "untracked"),
    (UNPUSHED, "unpushed"),
    (UPSTREAM_AVAILABLE, "upstream"),
    (MULTIPLE, "multiple"),
    (ERROR, "error"),
    (NOT_A_REPO, "error") ]

/-- The `STATUS_ICONS` dictionary (status → glyph). -/
def STATUS_ICONS : List (RepoStatus × String) :=
  [ (CLEAN, "✓"),
    (UNCOMMITTED, "●"),
    (UNTRACKED, "◉"),
    (UNPUSHED, "↑"),
    (UPSTREAM_AVAILABLE, "↓"),
    (MULTIPLE, "⚠"),
    (ERROR, "✗"),
    (NOT_A_REPO, "✗") ]

/-- Python `dict.get(key, default)` over an association list. -/
def dictGet (tbl : List (RepoStatus × String)) (s : RepoStatus) (dflt : String) : String :=
  match tbl with
  | [] => dflt
  | (k, v) :: rest => if s = k then v else dictGet rest s dflt

/-- Whether a key occurs in an association-list table. -/
def inTable (tbl : List (RepoStatus × String)) (s : RepoStatus) : Bool :=
  match tbl with
  | [] => false
  | (k, _) :: rest => if s = k then true else inTable rest s

/-- `GitStatusChecker.get_status_class`. -/
def get_status_class (s : RepoStatus) : String :=
  dictGet STATUS_CLASSES s "unknown"

/-- `GitStatusChecker.get_status_icon`. -/
def get_status_icon (s : RepoStatus) : String :=
  dictGet STATUS_ICONS s "?"

/-- The optional counters of the `details` sub-dictionary of a
repository check result; `none` models an absent key. -/
structure RepoDetails where
  uncommitted_count : Option Nat
  untracked_count : Option Nat
  unpushed_count : Option Nat
  upstream_count : Option Nat
deriving DecidableEq

/-- A `details` dictionary with no keys. -/
def noDetails : RepoDetails := ⟨none, none, none, none⟩

/-- The result dictionary produced by `check_repository` /
`check_repositories` for one repository. -/
structure RepoCheckResult where
  path : String
  name : String
  statuses : List RepoStatus
  priority_status : RepoStatus
  error : Option String
  details : RepoDetails
deriving DecidableEq

/-- The list of per-repository priority statuses collected by
`get_aggregate_status` (`all_statuses`). -/
def aggAllStatuses (l : List RepoCheckResult) : List RepoStatus :=
  l.map (fun r => r.priority_status)

/-- `repos_with_issues` count inside `get_aggregate_status`. -/
def aggIssueCount (l : List RepoCheckResult) : Nat :=
  ((aggAllStatuses l).filter (fun s => decide (s ≠ CLEAN))).length

/-- `GitStatusChecker.get_aggregate_status`. -/
def get_aggregate_status (l : List RepoCheckResult) : RepoStatus :=
  if l.isEmpty then CLEAN
  else if aggIssueCount l = 0 then CLEAN
  else if aggIssueCount l = 1 then
    ((aggAllStatuses l).find? (fun s => decide (s ≠ CLEAN))).getD CLEAN
  else if ERROR ∈ aggAllStatuses l ∨ NOT_A_REPO ∈ aggAllStatuses l then ERROR
  else MULTIPLE

/-- `pathlib.Path(p).name`: the final non-empty path segment. -/
def pathName (p : String) : String :=
  (((p.splitOn "/").filter (fun seg => decide (seg ≠ ""))).getLast?).getD ""

/-- The synthetic result built by `check_repositories` when checking one
path raises an unexpected exception. -/
def syntheticErrorResult (p : String) (e : String) : RepoCheckResult :=
  ⟨p, (if p = "" then "unknown" else pathName p), [ERROR], ERROR,
    some ("Unexpected error: " ++ e), noDetails⟩

/-- `GitStatusChecker.check_repositories`, with the per-repository check
(`check_repository`, which shells out to git) abstracted as an oracle
that either returns a result or raises an exception (`Except.error`).
Blank paths are skipped; the check receives the stripped path; a raised
exception becomes a synthetic error result. -/
def check_repositories (check : String → Except String RepoCheckResult) :
    List String → List RepoCheckResult
  | [] => []
  | p :: rest =>
    if p = "" ∨ p.trim = "" then check_repositories check rest
    else
      (match check p.trim with
       | Except.ok r => r
       | Except.error e => syntheticErrorResult p e) :: check_repositories check rest

/-- One entry of the parenthesized tooltip detail clause of
`generate_waybar_output`, e.g. `modified n` renders as "n modified". -/
inductive DetailEntry where
  | modified (n : Nat)
  | untracked (n : Nat)
  | unpushed (n : Nat)
  | upstream (n : Nat)
deriving DecidableEq

/-- Position of a detail-entry kind in the order the spec prescribes
(modified, untracked, unpushed, upstream-available). -/
def entryRank : DetailEntry → Nat
  | DetailEntry.modified _ => 0
  | DetailEntry.untracked _ => 1
  | DetailEntry.unpushed _ => 2
  | DetailEntry.upstream _ => 3

/-- The `details` list built per repository line in
`generate_waybar_output`: an entry per present counter key, in the
order uncommitted, untracked, unpushed.  The source never reads
`upstream_count` here. -/
def detailEntries (r : RepoCheckResult) : List DetailEntry :=
  (match r.details.uncommitted_count with
   | some n => [DetailEntry.modified n]
   | none => []) ++
  (match r.details.untracked_count with
   | some n => [DetailEntry.untracked n]
   | none => []) ++
  (match r.details.unpushed_count with
   | some n => [DetailEntry.unpushed n]
   | none => [])

/-- `repos_with_issues` of `generate_waybar_output`: the repositories
whose priority status is not `CLEAN`, in input order. -/
def reposWithIssues (l : List RepoCheckResult) : List RepoCheckResult :=
  l.filter (fun r => decide (r.priority_status ≠ CLEAN))

/-- Stable insertion step of `list.sort(key=...)`: insert `x` before the
first element with a strictly larger key. -/
def insertByKey (key : RepoCheckResult → Nat) (x : RepoCheckResult) :
    List RepoCheckResult → List RepoCheckResult
  | [] => [x]
  | y :: ys =>
    if key x ≤ key y then x :: y :: ys else y :: insertByKey key x ys

/-- Stable sort by a numeric key, modelling Python `list.sort(key=...)`. -/
def sortByKey (key : RepoCheckResult → Nat) : List RepoCheckResult → List RepoCheckResult
  | [] => []
  | x :: xs => insertByKey key x (sortByKey key xs)

/-- The sort key used for tooltip lines:
`list(RepoStatus).index(r['priority_status'])`. -/
def tooltipSortKey (r : RepoCheckResult) : Nat :=
  statusListIndex r.priority_status

/-- The repositories that get their own itemized tooltip line: the
issue repositories sorted by declaration-order index, capped at 10
(`repos_with_issues[:10]`). -/
def tooltipItemEntries (l : List RepoCheckResult) : List RepoCheckResult :=
  (sortByKey tooltipSortKey (reposWithIssues l)).take 10

/-- One line of the tooltip body: either an itemized repository line
(icon, repository name, detail clause) or the trailing
"... and M more" line. -/
inductive TooltipLine where
  | item (icon : String) (name : String) (details : List DetailEntry)
  | more (m : Nat)
deriving DecidableEq

/-- The itemized line built for one repository in
`generate_waybar_output`. -/
def mkItemLine (r : RepoCheckResult) : TooltipLine :=
  TooltipLine.item (get_status_icon r.priority_status) r.name (detailEntries r)

/-- The tooltip lines after the header in `generate_waybar_output`:
one line per entry of `repos_with_issues[:10]` (sorted), then the
"... and M more" line when more than 10 repositories have issues. -/
def tooltipBodyLines (l : List RepoCheckResult) : List TooltipLine :=
  (tooltipItemEntries l).map mkItemLine ++
  (if 10 < (reposWithIssues l).length then
     [TooltipLine.more ((reposWithIssues l).length - 10)]
   else [])

/-- Whether the itemized list was truncated (the condition under which
the source appends the "... and M more" line). -/
def truncated (l : List RepoCheckResult) : Bool :=
  decide (10 < (reposWithIssues l).length)

/-- `GitMonitor.should_check_repositories`: `last_check` is the optional
timestamp of the previous scan, `now` the current time (seconds),
`u`/`c` the configured `update_interval` and `cache_duration`. -/
def should_check_repositories (last_check : Option Nat) (now u c : Nat) : Bool :=
  match last_check with
  | none => true
  | some t => decide (min u c ≤ now - t)

/-- The monitor state relevant to caching: the last-scan timestamp and
the cache (`none` models the cleared/empty cache dictionary). -/
structure MonitorState where
  last_check : Option Nat
  cache : Option (List RepoCheckResult)
deriving DecidableEq

/-- The condition of `GitMonitor.check_repositories` under which the
cached statuses are returned instead of scanning:
`not self.should_check_repositories() and self.cache`. -/
def usesCachedResult (s : MonitorState) (now u c : Nat) : Bool :=
  !(should_check_repositories s.last_check now u c) && s.cache.isSome

/-- The main-loop rescan condition of `GitMonitor.run`:
`self.should_check_repositories() or not self.cache`. -/
def loopChecksDue (s : MonitorState) (now u c : Nat) : Bool :=
  should_check_repositories s.last_check now u c || s.cache.isNone

/-- `GitMonitor.handle_refresh`: the manual-refresh signal handler
clears the cache (and leaves `last_check` untouched). -/
def handle_refresh (s : MonitorState) : MonitorState :=
  ⟨s.last_check, none⟩

/-- The filesystem facts `validate_repository_path` consults about a
path: its text, whether it exists, is a directory, and has a `.git`
entry. -/
structure PathInfo where
  pathStr : String
  pathExists : Bool
  isDir : Bool
  hasGitDir : Bool
deriving DecidableEq

/-- Message for an empty path. -/
def msgEmptyPath : String := "Empty repository path"

/-- Message for a non-existent path. -/
def msgDoesNotExist (p : String) : String := "Path does not exist: " ++ p

/-- Message for a path that is not a directory. -/
def msgNotDirectory (p : String) : String := "Path is not a directory: " ++ p

/-- Message for a directory without a `.git` entry. -/
def msgNotGitRepo (p : String) : String :=
  "Not a git repository (no .git directory): " ++ p

/-- `GitStatusChecker.validate_repository_path`: returns
`(is_valid, error_message)`. -/
def validate_repository_path (p : PathInfo) : Bool × Option String :=
  if p.pathStr = "" then (false, some msgEmptyPath)
  else if p.pathExists = false then (false, some (msgDoesNotExist p.pathStr))
  else if p.isDir = false then (false, some (msgNotDirectory p.pathStr))
  else if p.hasGitDir = false then (false, some (msgNotGitRepo p.pathStr))
  else (true, none)

/-- Whether `pat` is a prefix of `l` (character lists). -/
def startsWithSeq : List Char → List Char → Bool
  | [], _ => true
  | _ :: _, [] => false
  | p :: ps, c :: cs => (p == c) && startsWithSeq ps cs

/-- Whether `pat` occurs contiguously in `l`, modelling the Python
substring operator `in`. -/
def containsSeq (pat : List Char) : List Char → Bool
  | [] => pat.isEmpty
  | c :: cs => startsWithSeq pat (c :: cs) || containsSeq pat cs

/-- Lower-cased character list of a string (Python `str.lower()`). -/
def lowerChars (s : String) : List Char :=
  s.toList.map Char.toLower

/-- The classifying test of `check_repository` for an invalid path:
`"not exist" in error_msg.lower()`. -/
def msgMentionsNotExist (msg : String) : Bool :=
  containsSeq ("not exist".toList) (lowerChars msg)

/-- The invalid-path branch of `check_repository`: when validation
fails, the result is `ERROR` if the (lower-cased) message contains
"not exist" and `NOT_A_REPO` otherwise, with the message recorded;
`none` means validation passed and probing proceeds. -/
def checkRepositoryTerminal (p : PathInfo) : Option (RepoStatus × String) :=
  match validate_repository_path p with
  | (true, _) => none
  | (false, m) =>
    some ((if msgMentionsNotExist (m.getD "") then ERROR else NOT_A_REPO), m.getD "")

/-- Modelled from the spec (§3): a raw status is one of the six signals
a probe may record, never `Clean` or `Multiple`. -/
def specRawStatus (s : RepoStatus) : Bool :=
  match s with
  | CLEAN => false
  | MULTIPLE => false
  | _ => true

/-- Modelled from the spec (§3): the fixed priority ordering, highest
first: Error, NotARepo, Uncommitted, Untracked, Unpushed,
UpstreamAvailable, Clean (Multiple, a synthetic output, ranks last). -/
def specPriorityRank : RepoStatus → Nat
  | ERROR => 0
  | NOT_A_REPO => 1
  | UNCOMMITTED => 2
  | UNTRACKED => 3
  | UNPUSHED => 4
  | UPSTREAM_AVAILABLE => 5
  | CLEAN => 6
  | MULTIPLE => 7

/-- A sample repository result with one issue, used to build concrete
inputs. -/
def sampleIssueRepo : RepoCheckResult :=
  ⟨"/tmp/r", "r", [UNCOMMITTED], UNCOMMITTED, none, noDetails⟩

/-- A linear scan (`find?`) returns the head of the filtered list. -/
theorem find_eq_head_filter {α : Type} (p : α → Bool) (l : List α) :
    l.find? p = (l.filter p).head? := by
  induction l with
  | nil => rfl
  | cons a t ih =>
    by_cases h : p a = true
    · rw [List.find?_cons_of_pos _ h, List.filter_cons_of_pos h, List.head?_cons]
    · rw [List.find?_cons_of_neg _ h, List.filter_cons_of_neg h, ih]

/-- Membership in the insertion step of the stable sort. -/
theorem mem_insertByKey (key : RepoCheckResult → Nat) (x a : RepoCheckResult) :
    ∀ l, (a ∈ insertByKey key x l ↔ a = x ∨ a ∈ l) := by
  intro l
  induction l with
  | nil => simp [insertByKey]
  | cons y ys ih =>
    by_cases h : key x ≤ key y
    · simp [insertByKey, h]
    · simp [insertByKey, h, ih]
      tauto

/-- Inserting into a key-sorted list keeps it key-sorted. -/
theorem insertByKey_pairwise (key : RepoCheckResult → Nat) (x : RepoCheckResult) :
    ∀ l, l.Pairwise (fun a b => key a ≤ key b) →
      (insertByKey key x l).Pairwise (fun a b => key a ≤ key b) := by
  intro l h
  induction l with
  | nil => simp [insertByKey]
  | cons y ys ih =>
    rw [List.pairwise_cons] at h
    obtain ⟨hy, hys⟩ := h
    by_cases hxy : key x ≤ key y
    · rw [insertByKey, if_pos hxy, List.pairwise_cons]
      refine ⟨?_, List.pairwise_cons.mpr ⟨hy, hys⟩⟩
      intro b hb
      rcases List.mem_cons.mp hb with rfl | hb'
      · exact hxy
      · exact le_trans hxy (hy b hb')
    · rw [insertByKey, if_neg hxy, List.pairwise_cons]
      refine ⟨?_, ih hys⟩
      intro b hb
      rcases (mem_insertByKey key x b ys).mp hb with rfl | hb'
      · exact le_of_not_le hxy
      · exact hy b hb'

/-- The stable sort produces a key-sorted list. -/
theorem sortByKey_pairwise (key : RepoCheckResult → Nat) :
    ∀ l, (sortByKey key l).Pairwise (fun a b => key a ≤ key b) := by
  intro l
  induction l with
  | nil => simp [sortByKey]
  | cons x xs ih => exact insertByKey_pairwise key x _ ih

/-- The insertion step is a permutation of consing. -/
theorem insertByKey_perm (key : RepoCheckResult → Nat) (x : RepoCheckResult) :
    ∀ l, (insertByKey key x l).Perm (x :: l) := by
  intro l
  induction l with
  | nil => simp [insertByKey]
  | cons y ys ih =>
    by_cases h : key x ≤ key y
    · rw [insertByKey, if_pos h]
    · rw [insertByKey, if_neg h]
      exact (ih.cons y).trans (List.Perm.swap x y ys)

/-- The stable sort permutes its input. -/
theorem sortByKey_perm (key : RepoCheckResult → Nat) :
    ∀ l, (sortByKey key l).Perm l := by
  intro l
  induction l with
  | nil => exact List.Perm.refl []
  | cons x xs ih => exact (insertByKey_perm key x _).trans (ih.cons x)

/-- The stable sort preserves length. -/
theorem sortByKey_length (key : RepoCheckResult → Nat) (l : List RepoCheckResult) :
    (sortByKey key l).length = l.length :=
  (sortByKey_perm key l).length_eq

/-- On a singleton, the priority scan returns the sole member, for any
status that occurs in the priority table. -/
theorem firstMem_singleton (s : RepoStatus) (h : s ≠ MULTIPLE) :
    firstMem priority_order [s] = s := by
  cases s <;> first | rfl | exact absurd rfl h

/-- The "does not exist" message always mentions "not exist". -/
theorem mentions_msgDoesNotExist (s : String) :
    msgMentionsNotExist (msgDoesNotExist s) = true := rfl

/-- The "not a directory" message mentions "not exist" only via the
embedded path. -/
theorem mentions_msgNotDirectory (s : String) :
    msgMentionsNotExist (msgNotDirectory s) = msgMentionsNotExist s := rfl

/-- The "not a git repository" message mentions "not exist" only via the
embedded path. -/
theorem mentions_msgNotGitRepo (s : String) :
    msgMentionsNotExist (msgNotGitRepo s) = msgMentionsNotExist s := rfl

/-- The non-existence and not-a-directory messages differ (for the same
path). -/
theorem msgDoesNotExist_ne_msgNotDirectory (s : String) :
    msgDoesNotExist s ≠ msgNotDirectory s := by
  intro h
  have h2 : (msgDoesNotExist s).toList.getD 5 ' ' =
      (msgNotDirectory s).toList.getD 5 ' ' := by rw [h]
  have e1 : (msgDoesNotExist s).toList.getD 5 ' ' = 'd' := rfl
  have e2 : (msgNotDirectory s).toList.getD 5 ' ' = 'i' := rfl
  rw [e1, e2] at h2
  exact absurd h2 (by decide)

/-- The non-existence and not-a-git-repository messages differ (for the
same path). -/
theorem msgDoesNotExist_ne_msgNotGitRepo (s : String) :
    msgDoesNotExist s ≠ msgNotGitRepo s := by
  intro h
  have h2 : (msgDoesNotExist s).toList.getD 0 ' ' =
      (msgNotGitRepo s).toList.getD 0 ' ' := by rw [h]
  have e1 : (msgDoesNotExist s).toList.getD 0 ' ' = 'P' := rfl
  have e2 : (msgNotGitRepo s).toList.getD 0 ' ' = 'N' := rfl
  rw [e1, e2] at h2
  exact absurd h2 (by decide)

/-- Claim C1: the status classifier returns Clean for the empty raw
status set, the sole member for a singleton raw set, and for sets of
two or more members Error when Error is present, else NotARepo when
NotARepo is present, else the synthetic Multiple; in particular every
non-empty raw set containing Error classifies as Error.  Raw sets are
modelled as duplicate-free lists of raw (non-Clean, non-Multiple)
statuses. -/
theorem c1_classifier (l : List RepoStatus) (hnd : l.Nodup)
    (hraw : ∀ s ∈ l, specRawStatus s = true) :
    (l = [] → get_status_priority l = CLEAN) ∧
    (∀ s, l = [s] → get_status_priority l = s) ∧
    (1 < l.length →
      get_status_priority l =
        if ERROR ∈ l then ERROR
        else if NOT_A_REPO ∈ l then NOT_A_REPO
        else MULTIPLE) ∧
    (l ≠ [] → ERROR ∈ l → get_status_priority l = ERROR) := by
  refine ⟨?_, ?_, ?_, ?_⟩
  · rintro rfl
    rfl
  · rintro s rfl
    have hs := hraw s (by simp)
    have hsm : s ≠ MULTIPLE := by
      intro h
      subst h
      simp [specRawStatus] at hs
    unfold get_status_priority
    rw [if_neg (by simp)]
    exact firstMem_singleton s hsm
  · intro hlen
    unfold get_status_priority
    rw [if_pos hlen]
    by_cases he : ERROR ∈ l
    · simp [he]
    · by_cases hn : NOT_A_REPO ∈ l <;> simp [he, hn]
  · intro hne he
    rcases l with _ | ⟨a, _ | ⟨b, t⟩⟩
    · exact absurd rfl hne
    · have : ERROR = a := List.mem_singleton.mp he
      subst this
      rfl
    · unfold get_status_priority
      rw [if_pos (by simp [Nat.lt_of_sub_eq_succ])]
      · simp [he]

/-- Concrete instance of C1: the raw set containing Error and
Uncommitted classifies as Error. -/
theorem c1_classifier_witness :
    get_status_priority [ERROR, UNCOMMITTED] = ERROR := by
  have h := c1_classifier [ERROR, UNCOMMITTED] (by decide) (by decide)
  exact h.2.2.2 (by decide) (by decide)

/-- Claim C2 counterexample: a single repository whose own priority
status is the synthetic Multiple (a repository with several raw
signals) gives issue count 1, and the aggregator returns Multiple —
refuting the claim's "(never Multiple)" for the one-issue case. -/
theorem c2_aggregate_counterexample :
    aggIssueCount
      [(⟨"/tmp/m", "m", [UNCOMMITTED, UNTRACKED], MULTIPLE, none,
         ⟨some 1, some 1, none, none⟩⟩ : RepoCheckResult)] = 1 ∧
    get_aggregate_status
      [(⟨"/tmp/m", "m", [UNCOMMITTED, UNTRACKED], MULTIPLE, none,
         ⟨some 1, some 1, none, none⟩⟩ : RepoCheckResult)] = MULTIPLE :=
  ⟨by decide, by decide⟩

/-- Claim C2 (amended): the aggregator returns Clean for the empty list
or when no repository has a non-Clean priority status; with exactly one
repository of non-Clean priority status it returns that repository's
priority status (so Multiple only when that repository itself
classified as Multiple); with two or more it returns Error if any of
them is Error or NotARepo, else Multiple. -/
theorem c2_aggregate (l : List RepoCheckResult) :
    (l = [] → get_aggregate_status l = CLEAN) ∧
    (aggIssueCount l = 0 → get_aggregate_status l = CLEAN) ∧
    (aggIssueCount l = 1 → ∀ r ∈ l, r.priority_status ≠ CLEAN →
      get_aggregate_status l = r.priority_status) ∧
    (2 ≤ aggIssueCount l →
      ((ERROR ∈ aggAllStatuses l ∨ NOT_A_REPO ∈ aggAllStatuses l) →
        get_aggregate_status l = ERROR) ∧
      (ERROR ∉ aggAllStatuses l → NOT_A_REPO ∉ aggAllStatuses l →
        get_aggregate_status l = MULTIPLE)) := by
  refine ⟨?_, ?_, ?_, ?_⟩
  · rintro rfl
    rfl
  · intro h0
    by_cases hE : l.isEmpty <;> simp [get_aggregate_status, hE, h0]
  · intro h1 r hr hrne
    have hne : l.isEmpty = false := by
      rcases l with _ | ⟨a, t⟩
      · simp [aggIssueCount, aggAllStatuses] at h1
      · rfl
    unfold get_aggregate_status
    rw [hne]
    simp only [Bool.false_eq_true, if_false]
    rw [if_neg (by omega), if_pos h1]
    have hmem : r.priority_status ∈
        (aggAllStatuses l).filter (fun s => decide (s ≠ CLEAN)) := by
      rw [List.mem_filter]
      refine ⟨?_, by simpa using hrne⟩
      simp only [aggAllStatuses, List.mem_map]
      exact ⟨r, hr, rfl⟩
    obtain ⟨x, hx⟩ := List.length_eq_one.mp h1
    rw [find_eq_head_filter, hx]
    rw [hx] at hmem
    have : r.priority_status = x := List.mem_singleton.mp hmem
    rw [this]
    rfl
  · intro h2
    have hne : l.isEmpty = false := by
      rcases l with _ | ⟨a, t⟩
      · simp [aggIssueCount, aggAllStatuses] at h2
      · rfl
    constructor
    · intro hor
      unfold get_aggregate_status
      rw [hne]
      simp only [Bool.false_eq_true, if_false]
      rw [if_neg (by omega), if_neg (by omega), if_pos hor]
    · intro hE hN
      unfold get_aggregate_status
      rw [hne]
      simp only [Bool.false_eq_true, if_false]
      rw [if_neg (by omega), if_neg (by omega), if_neg (not_or.mpr ⟨hE, hN⟩)]

/-- Concrete instance of C2 (amended): a single uncommitted repository
among its list yields aggregate status Uncommitted. -/
theorem c2_aggregate_witness :
    get_aggregate_status
      [(⟨"/tmp/u", "u", [UNCOMMITTED], UNCOMMITTED, none,
         ⟨some 2, none, none, none⟩⟩ : RepoCheckResult)] = UNCOMMITTED := by
  have h := c2_aggregate
    [(⟨"/tmp/u", "u", [UNCOMMITTED], UNCOMMITTED, none,
       ⟨some 2, none, none, none⟩⟩ : RepoCheckResult)]
  exact h.2.2.1 (by decide)
    (⟨"/tmp/u", "u", [UNCOMMITTED], UNCOMMITTED, none,
      ⟨some 2, none, none, none⟩⟩ : RepoCheckResult)
    (by decide) (by decide)

/-- Claim C3 counterexample: with one Error repository and one
Uncommitted repository, the itemized tooltip entries come out
[Uncommitted, Error], although Error has strictly higher priority in
the spec's §3 ordering — the higher-priority line does not precede. -/
theorem c3_sort_counterexample :
    (tooltipItemEntries
      [⟨"/tmp/a", "alpha", [ERROR], ERROR, some "boom", noDetails⟩,
       ⟨"/tmp/b", "beta", [UNCOMMITTED], UNCOMMITTED, none,
        ⟨some 2, none, none, none⟩⟩]).map (fun r => r.priority_status) =
      [UNCOMMITTED, ERROR] ∧
    specPriorityRank ERROR < specPriorityRank UNCOMMITTED :=
  ⟨by decide, by decide⟩

/-- Claim C3 (amended): the itemized tooltip lines are sorted by the
position of the repository's priority status in the enumeration's
declaration order (Clean, Uncommitted, Untracked, Unpushed,
UpstreamAvailable, Error, NotARepo, Multiple) — the key
`list(RepoStatus).index(...)` the source sorts with — not by the §3
priority ordering, so Error/NotARepo lines come last, not first. -/
theorem c3_sort_amended (l : List RepoCheckResult) :
    (tooltipItemEntries l).Pairwise
      (fun a b => statusListIndex a.priority_status ≤ statusListIndex b.priority_status) := by
  have hs := sortByKey_pairwise tooltipSortKey (reposWithIssues l)
  exact List.Pairwise.sublist (List.take_sublist 10 _) hs

/-- Claim C4 counterexample: a repository whose only counter is
`upstream_count` gets an empty detail clause — no upstream-available
entry is ever produced. -/
theorem c4_detail_counterexample :
    detailEntries
      ⟨"/tmp/up", "up", [UPSTREAM_AVAILABLE], UPSTREAM_AVAILABLE, none,
       ⟨none, none, none, some 3⟩⟩ = [] ∧
    (⟨"/tmp/up", "up", [UPSTREAM_AVAILABLE], UPSTREAM_AVAILABLE, none,
      ⟨none, none, none, some 3⟩⟩ : RepoCheckResult).details.upstream_count = some 3 :=
  ⟨rfl, rfl⟩

/-- Claim C4 (amended): a repository line's detail clause lists exactly
the present modified, untracked and unpushed counts, in that fixed
order; upstream-available counts are never listed. -/
theorem c4_detail_amended (r : RepoCheckResult) :
    (∀ n, (DetailEntry.modified n ∈ detailEntries r ↔
      r.details.uncommitted_count = some n)) ∧
    (∀ n, (DetailEntry.untracked n ∈ detailEntries r ↔
      r.details.untracked_count = some n)) ∧
    (∀ n, (DetailEntry.unpushed n ∈ detailEntries r ↔
      r.details.unpushed_count = some n)) ∧
    (∀ n, DetailEntry.upstream n ∉ detailEntries r) ∧
    (detailEntries r).Pairwise (fun a b => entryRank a ≤ entryRank b) := by
  obtain ⟨p, nm, st, ps, er, uc, tc, pc, sc⟩ := r
  cases uc <;> cases tc <;> cases pc <;>
    simp [detailEntries, entryRank, eq_comm]

/-- Concrete instance of C4 (amended): a present modified count of 3
produces the "3 modified" entry. -/
theorem c4_detail_witness :
    DetailEntry.modified 3 ∈ detailEntries
      ⟨"/tmp/r", "r", [UNCOMMITTED], UNCOMMITTED, none,
       ⟨some 3, none, none, none⟩⟩ := by
  exact ((c4_detail_amended
    ⟨"/tmp/r", "r", [UNCOMMITTED], UNCOMMITTED, none,
     ⟨some 3, none, none, none⟩⟩).1 3).mpr rfl

/-- Claim C5: when more than 10 repositories have issues, the tooltip
body has exactly 10 itemized lines plus a single trailing more-line
whose count is the number of omitted repositories, and the truncation
flag is set; with 10 or fewer, every issue repository gets its own line
and no more-line appears. -/
theorem c5_truncation (l : List RepoCheckResult) :
    (10 < (reposWithIssues l).length →
      (tooltipItemEntries l).length = 10 ∧
      tooltipBodyLines l =
        (tooltipItemEntries l).map mkItemLine ++
          [TooltipLine.more ((reposWithIssues l).length - 10)] ∧
      truncated l = true) ∧
    ((reposWithIssues l).length ≤ 10 →
      (tooltipItemEntries l).length = (reposWithIssues l).length ∧
      tooltipItemEntries l = sortByKey tooltipSortKey (reposWithIssues l) ∧
      (tooltipItemEntries l).Perm (reposWithIssues l) ∧
      tooltipBodyLines l = (tooltipItemEntries l).map mkItemLine ∧
      truncated l = false) := by
  constructor
  · intro h
    refine ⟨?_, ?_, ?_⟩
    · simp only [tooltipItemEntries, List.length_take, sortByKey_length]
      omega
    · simp only [tooltipBodyLines, if_pos h]
    · simp only [truncated, decide_eq_true_eq]
      exact h
  · intro h
    have htake : tooltipItemEntries l = sortByKey tooltipSortKey (reposWithIssues l) := by
      unfold tooltipItemEntries
      exact List.take_of_length_le (by rw [sortByKey_length]; exact h)
    refine ⟨?_, htake, ?_, ?_, ?_⟩
    · rw [htake, sortByKey_length]
    · rw [htake]
      exact sortByKey_perm tooltipSortKey (reposWithIssues l)
    · simp only [tooltipBodyLines, if_neg (Nat.not_lt.mpr h), List.append_nil]
    · simp only [truncated, decide_eq_false_iff_not]
      exact Nat.not_lt.mpr h

/-- Concrete instance of C5: 12 issue repositories yield exactly 10
itemized lines, one trailing more-line counting the 2 omitted
repositories, and a set truncation flag. -/
theorem c5_truncation_witness :
    (tooltipItemEntries (List.replicate 12 sampleIssueRepo)).length = 10 ∧
    tooltipBodyLines (List.replicate 12 sampleIssueRepo) =
      (tooltipItemEntries (List.replicate 12 sampleIssueRepo)).map mkItemLine ++
        [TooltipLine.more 2] ∧
    truncated (List.replicate 12 sampleIssueRepo) = true := by
  have h := (c5_truncation (List.replicate 12 sampleIssueRepo)).1 (by decide)
  exact ⟨h.1, h.2.1, h.2.2⟩

/-- Claim C6 counterexample: a path whose own text contains
"not exist", which exists but is not a directory, is classified Error
(the classifier searches the lower-cased message, which embeds the
path, for "not exist") — although the claim requires NotARepo there. -/
theorem c6_path_counterexample :
    (⟨"data not existing", true, false, false⟩ : PathInfo).pathExists = true ∧
    (⟨"data not existing", true, false, false⟩ : PathInfo).isDir = false ∧
    checkRepositoryTerminal ⟨"data not existing", true, false, false⟩ =
      some (ERROR, msgNotDirectory "data not existing") :=
  ⟨rfl, rfl, rfl⟩

/-- Claim C6 (amended): for every non-empty path whose text does not
itself contain the substring "not exist" (case-insensitively),
validation before probing yields Error with the
"Path does not exist: ..." message exactly when the path does not
exist, NotARepo with a distinct message when it exists but is not a
directory or lacks a .git entry, and no terminal status for a valid
repository path; the two terminal statuses and their messages are
distinct. -/
theorem c6_path_validation (p : PathInfo) (hne : p.pathStr ≠ "")
    (hsub : msgMentionsNotExist p.pathStr = false) :
    (p.pathExists = false →
      checkRepositoryTerminal p = some (ERROR, msgDoesNotExist p.pathStr)) ∧
    (p.pathExists = true → p.isDir = false →
      checkRepositoryTerminal p = some (NOT_A_REPO, msgNotDirectory p.pathStr)) ∧
    (p.pathExists = true → p.isDir = true → p.hasGitDir = false →
      checkRepositoryTerminal p = some (NOT_A_REPO, msgNotGitRepo p.pathStr)) ∧
    (p.pathExists = true → p.isDir = true → p.hasGitDir = true →
      checkRepositoryTerminal p = none) ∧
    msgDoesNotExist p.pathStr ≠ msgNotDirectory p.pathStr ∧
    msgDoesNotExist p.pathStr ≠ msgNotGitRepo p.pathStr ∧
    (ERROR : RepoStatus) ≠ NOT_A_REPO := by
  refine ⟨?_, ?_, ?_, ?_, msgDoesNotExist_ne_msgNotDirectory p.pathStr,
    msgDoesNotExist_ne_msgNotGitRepo p.pathStr, by decide⟩
  · intro hx
    have hv : validate_repository_path p = (false, some (msgDoesNotExist p.pathStr)) := by
      unfold validate_repository_path
      rw [if_neg hne, if_pos hx]
    unfold checkRepositoryTerminal
    rw [hv]
    simp [mentions_msgDoesNotExist]
  · intro hx hd
    have hv : validate_repository_path p = (false, some (msgNotDirectory p.pathStr)) := by
      unfold validate_repository_path
      rw [if_neg hne, if_neg (by simp [hx]), if_pos hd]
    unfold checkRepositoryTerminal
    rw [hv]
    simp [mentions_msgNotDirectory, hsub]
  · intro hx hd hg
    have hv : validate_repository_path p = (false, some (msgNotGitRepo p.pathStr)) := by
      unfold validate_repository_path
      rw [if_neg hne, if_neg (by simp [hx]), if_neg (by simp [hd]), if_pos hg]
    unfold checkRepositoryTerminal
    rw [hv]
    simp [mentions_msgNotGitRepo, hsub]
  · intro hx hd hg
    have hv : validate_repository_path p = (true, none) := by
      unfold validate_repository_path
      rw [if_neg hne, if_neg (by simp [hx]), if_neg (by simp [hd]), if_neg (by simp [hg])]
    unfold checkRepositoryTerminal
    rw [hv]

/-- Concrete instance of C6 (amended): a non-existent path is
classified Error with the "Path does not exist" message. -/
theorem c6_path_witness :
    checkRepositoryTerminal ⟨"/tmp/missing", false, false, false⟩ =
      some (ERROR, msgDoesNotExist "/tmp/missing") := by
  exact (c6_path_validation ⟨"/tmp/missing", false, false, false⟩
    (by decide) (by decide)).1 rfl

/-- Claim C7: the batch scanner produces exactly one result per
non-blank path, in input order (it equals the per-path check mapped
over the non-blank entries); the empty input yields the empty list; and
a raised per-path exception becomes a synthetic result with priority
status Error and a diagnostic message. -/
theorem c7_scanner (check : String → Except String RepoCheckResult)
    (paths : List String) :
    check_repositories check paths =
      (paths.filter (fun p => decide (¬(p = "" ∨ p.trim = "")))).map
        (fun p =>
          match check p.trim with
          | Except.ok r => r
          | Except.error e => syntheticErrorResult p e) ∧
    check_repositories check [] = [] ∧
    (∀ p e, (syntheticErrorResult p e).priority_status = ERROR ∧
      (syntheticErrorResult p e).error = some ("Unexpected error: " ++ e)) := by
  refine ⟨?_, rfl, fun p e => ⟨rfl, rfl⟩⟩
  induction paths with
  | nil => rfl
  | cons p rest ih =>
    by_cases h : (p = "" ∨ p.trim = "")
    · rw [check_repositories, if_pos h, ih, List.filter_cons,
        if_neg (by simp [h])]
    · rw [check_repositories, if_neg h, ih, List.filter_cons,
        if_pos (by simp [not_or.mp h])]
      rfl

/-- Claim C8: the should-scan decision is true exactly when the
last-scan timestamp is unset or the elapsed time reaches the minimum of
the configured update interval and cache duration; with interval 30 and
cache duration 5, at 3 seconds the cached result is served and at 10
seconds a new scan is due. -/
theorem c8_scheduler :
    (∀ (lc : Option Nat) (now u c : Nat),
      should_check_repositories lc now u c = true ↔
        (lc = none ∨ ∃ t, lc = some t ∧ min u c ≤ now - t)) ∧
    should_check_repositories (some 0) 3 30 5 = false ∧
    should_check_repositories (some 0) 10 30 5 = true ∧
    usesCachedResult ⟨some 0, some [sampleIssueRepo]⟩ 3 30 5 = true ∧
    usesCachedResult ⟨some 0, some [sampleIssueRepo]⟩ 10 30 5 = false := by
  refine ⟨?_, by decide, by decide, by decide, by decide⟩
  intro lc now u c
  cases lc <;> simp [should_check_repositories]

/-- Claim C9: after the manual-refresh cache invalidation, the monitor
never serves the (cleared) cache and the next decision is due,
independently of elapsed time; concretely, zero seconds after a scan a
refreshed monitor rescans where an unrefreshed one would have served
the cache. -/
theorem c9_invalidate (s : MonitorState) (now u c : Nat) :
    usesCachedResult (handle_refresh s) now u c = false ∧
    loopChecksDue (handle_refresh s) now u c = true ∧
    usesCachedResult ⟨some 100, some [sampleIssueRepo]⟩ 100 30 5 = true ∧
    usesCachedResult (handle_refresh ⟨some 100, some [sampleIssueRepo]⟩) 100 30 5 = false := by
  refine ⟨?_, ?_, by decide, by decide⟩
  · simp [usesCachedResult, handle_refresh]
  · simp [loopChecksDue, handle_refresh]

/-- Claim C10: NotARepo renders exactly like Error — icon "✗" and CSS
class "error" for both — and the lookup used by the icon/class getters
returns the fallback default whenever a key is missing from the table
(and every status is present in both tables, so the fallback is never
reached for an actual status). -/
theorem c10_display :
    get_status_icon NOT_A_REPO = "✗" ∧
    get_status_icon ERROR = "✗" ∧
    get_status_class NOT_A_REPO = "error" ∧
    get_status_class ERROR = "error" ∧
    get_status_icon NOT_A_REPO = get_status_icon ERROR ∧
    get_status_class NOT_A_REPO = get_status_class ERROR ∧
    (∀ s : RepoStatus, inTable STATUS_ICONS s = true ∧
      inTable STATUS_CLASSES s = true) ∧
    (∀ (tbl : List (RepoStatus × String)) (s : RepoStatus) (d : String),
      inTable tbl s = false → dictGet tbl s d = d) := by
  refine ⟨rfl, rfl, rfl, rfl, rfl, rfl, ?_, ?_⟩
  · intro s
    cases s <;> exact ⟨rfl, rfl⟩
  · intro tbl s d h
    induction tbl with
    | nil => rfl
    | cons kv rest ih =>
      obtain ⟨k, v⟩ := kv
      by_cases hk : s = k
      · rw [inTable, if_pos hk] at h
        exact absurd h (by decide)
      · rw [inTable, if_neg hk] at h
        rw [dictGet, if_neg hk]
        exact ih h

/-- Concrete instance of C10: a missing key makes the defaulting lookup
return the fallback. -/
theorem c10_display_witness : dictGet [] CLEAN "?" = "?" := by
  exact c10_display.2.2.2.2.2.2.2 [] CLEAN "?" rfl

end GitStatusWaybar
